import Mathlib

/-
Verification of the Optimization Job Orchestration subsystem of the
trading-optimizer dashboard (src/app.py) against its specification.

The relevant parts of src/app.py are shallowly embedded below:
HTTP calls are represented by explicit outcome values handed to the
handlers, JSON payloads by an inductive value type, Streamlit session
state by explicit arguments and returned effect records, and Python
floats by exact rationals.
-/

set_option autoImplicit false

namespace TradingOpt

/-- Primitive JSON scalar values (integers, strings, booleans) as they
occur in payloads exchanged with the remote optimizer. -/
inductive JPrim where
  | pint : Int → JPrim
  | pstr : String → JPrim
  | pbool : Bool → JPrim
deriving DecidableEq, Repr

mutual

/-- JSON-like values as returned by response.json() inside the client,
possibly containing numpy wrapper scalars (objects exposing .item(),
the `hasattr(obj, 'item')` branch of convert_numpy in src/app.py). -/
inductive JVal where
  | wrapped : JPrim → JVal
  | dict : JDict → JVal
  | jlist : JList → JVal
  | prim : JPrim → JVal

/-- A JSON object: an ordered association of string keys to values
(Python dict, keys unique in practice). -/
inductive JDict where
  | nil : JDict
  | cons : String → JVal → JDict → JDict

/-- A JSON array. -/
inductive JList where
  | lnil : JList
  | lcons : JVal → JList → JList

end

/-- Python `d.get(key)`: the value at the first matching key, if any. -/
def JDict.lookup : JDict → String → Option JVal
  | .nil, _ => none
  | .cons k v rest, key => if k = key then some v else JDict.lookup rest key

/-- Python `key in d`. -/
def JDict.hasKey (d : JDict) (k : String) : Bool :=
  (d.lookup k).isSome

/-- Python truthiness of a dict is emptiness: `if d:` is false exactly
for the empty dict. -/
def JDict.isEmpty : JDict → Bool
  | .nil => true
  | .cons _ _ _ => false

/-- Python `d.get(key, dflt)`. -/
def JDict.getD (d : JDict) (k : String) (dflt : JVal) : JVal :=
  (d.lookup k).getD dflt

mutual

/-- Embedding of convert_numpy from get_optimization_results
(src/app.py lines 125-133): numpy wrapper scalars are unwrapped via
.item(), dicts and lists are converted recursively, and every other
value is returned unchanged. -/
def convert_numpy : JVal → JVal
  | .wrapped v => .prim v
  | .dict d => .dict (convert_numpyDict d)
  | .jlist l => .jlist (convert_numpyList l)
  | .prim p => .prim p

/-- convert_numpy on a dict: `{k: convert_numpy(v) for k, v in obj.items()}`. -/
def convert_numpyDict : JDict → JDict
  | .nil => .nil
  | .cons k v rest => .cons k (convert_numpy v) (convert_numpyDict rest)

/-- convert_numpy on a list: `[convert_numpy(item) for item in obj]`. -/
def convert_numpyList : JList → JList
  | .lnil => .lnil
  | .lcons v rest => .lcons (convert_numpy v) (convert_numpyList rest)

end

mutual

/-- The dict/list skeleton of a JSON value: scalars (wrapped or plain)
erase to a leaf, while dict keys and list positions are kept. -/
inductive JShape where
  | leaf : JShape
  | dict : JShapeDict → JShape
  | jlist : JShapeList → JShape

/-- Skeleton of a JSON object: its key spine. -/
inductive JShapeDict where
  | nil : JShapeDict
  | cons : String → JShape → JShapeDict → JShapeDict

/-- Skeleton of a JSON array. -/
inductive JShapeList where
  | lnil : JShapeList
  | lcons : JShape → JShapeList → JShapeList

end

mutual

/-- Compute the skeleton of a JSON value. -/
def JVal.shape : JVal → JShape
  | .wrapped _ => .leaf
  | .prim _ => .leaf
  | .dict d => .dict (JDict.shape d)
  | .jlist l => .jlist (JList.shape l)

/-- Compute the skeleton of a JSON object. -/
def JDict.shape : JDict → JShapeDict
  | .nil => .nil
  | .cons k v rest => .cons k (JVal.shape v) (JDict.shape rest)

/-- Compute the skeleton of a JSON array. -/
def JList.shape : JList → JShapeList
  | .lnil => .lnil
  | .lcons v rest => .lcons (JVal.shape v) (JList.shape rest)

end

/-- Transport-level outcome of the POST /optimize request issued by
run_colab_optimization (src/app.py lines 65-97): a 200 response with a
JSON body, a non-200 response, a requests Timeout, a requests
ConnectionError, or some other exception. -/
inductive OptimizeOutcome where
  | httpOk : JDict → OptimizeOutcome
  | httpErr : Nat → String → OptimizeOutcome
  | timeout : OptimizeOutcome
  | connError : OptimizeOutcome
  | otherExc : String → OptimizeOutcome

/-- A one-entry dict `{'error': msg}` as built by run_colab_optimization. -/
def errDict (msg : String) : JDict :=
  JDict.cons "error" (JVal.prim (JPrim.pstr msg)) JDict.nil

/-- Embedding of run_colab_optimization (src/app.py lines 65-97): on a
200 response return its JSON body; on any other status or on any
exception (Timeout and ConnectionError included) return an `{'error':
...}` dict.  The function never raises. -/
def run_colab_optimization : OptimizeOutcome → JDict
  | .httpOk d => d
  | .httpErr code text => errDict ("HTTP " ++ toString code ++ ": " ++ text)
  | .timeout => errDict "Request timeout - check if Colab is still running"
  | .connError => errDict "Connection error - check if Colab URL is correct"
  | .otherExc msg => errDict msg

/-- Transport-level outcome of the GET /status request issued by
check_optimization_status (src/app.py lines 99-113). -/
inductive StatusOutcome where
  | ok : JDict → StatusOutcome
  | httpFail : Nat → StatusOutcome
  | exc : StatusOutcome

/-- Embedding of check_optimization_status: the status JSON on a 200
response, None on any other status code or exception. -/
def check_optimization_status : StatusOutcome → Option JDict
  | .ok d => some d
  | .httpFail _ => none
  | .exc => none

/-- Transport-level outcome of the GET /results request issued by
get_optimization_results (src/app.py lines 115-143). -/
inductive FetchOutcome where
  | ok : JDict → FetchOutcome
  | httpFail : Nat → FetchOutcome
  | exc : FetchOutcome

/-- Embedding of get_optimization_results: on a 200 response the JSON
body normalized by convert_numpy, None on any other status code or
exception (so no parse error ever escapes this function). -/
def get_optimization_results : FetchOutcome → Option JDict
  | .ok d => some (convert_numpyDict d)
  | .httpFail _ => none
  | .exc => none

/-- Python `value == False` for the value of `status_check.get('running')`:
False matches the boolean False and the number 0; a missing key (None)
does not. -/
def isPyFalse : JVal → Bool
  | .prim (.pbool b) => !b
  | .prim (.pint n) => n == 0
  | _ => false

/-- The condition `status_check.get('running') == False` of the Check
Progress handler (src/app.py line 881). -/
def runningReportedFalse (s : JDict) : Bool :=
  match s.lookup "running" with
  | some v => isPyFalse v
  | none => false

/-- One filter-combination record of a sweep configuration. -/
structure FilterFlags where
  use_xtrend : Bool
  use_ema : Bool
  use_adx : Bool
deriving DecidableEq, Repr

/-- The `filter_combinations` entry of a config dict: absent (the quick
preset), the string sentinel `'all'` (the comprehensive preset), or an
explicit list (the standard preset). -/
inductive FilterCombs where
  | absent : FilterCombs
  | allSentinel : FilterCombs
  | lst : List FilterFlags → FilterCombs
deriving DecidableEq, Repr

/-- A sweep configuration dict as assembled in tab2 of src/app.py.
Fields that a preset omits from the Python dict are modelled with
Option/None (the use flags) or with `FilterCombs.absent`.  Python
floats are modelled as exact rationals. -/
structure SweepConfig where
  optimization_type : String
  pivot_periods : List Nat
  atr_factors : List Rat
  atr_periods : List Nat
  risk_percents : List Rat
  cb_buffer_pcts : List Rat
  use_xtrend : Option Bool
  use_ema : Option Bool
  use_adx : Option Bool
  filter_combinations : FilterCombs
  ema_periods : List Nat
  adx_thresholds : List Nat

/-- The Quick Test preset configuration (src/app.py lines 617-632). -/
def quickConfig : SweepConfig where
  optimization_type := "3_step"
  pivot_periods := [10]
  atr_factors := [2]
  atr_periods := [14]
  risk_percents := [1]
  cb_buffer_pcts := [3/100]
  use_xtrend := some true
  use_ema := some true
  use_adx := some false
  filter_combinations := FilterCombs.absent
  ema_periods := [30]
  adx_thresholds := [20]

/-- Step 1 metric of the Optimization Summary (src/app.py lines 750-755):
`len(pivot_periods) * len(atr_factors) * len(atr_periods)`. -/
def coreCombos (c : SweepConfig) : Nat :=
  c.pivot_periods.length * c.atr_factors.length * c.atr_periods.length

/-- Step 2 metric of the Optimization Summary (src/app.py lines 757-762):
`len(risk_percents) * len(cb_buffer_pcts)`. -/
def riskCombos (c : SweepConfig) : Nat :=
  c.risk_percents.length * c.cb_buffer_pcts.length

/-- What the Step 3 "Filter Tests" metric displays: a number or the
string "All". -/
inductive MetricDisplay where
  | num : Nat → MetricDisplay
  | allStr : MetricDisplay
deriving DecidableEq, Repr

/-- Step 3 metric of the Optimization Summary (src/app.py lines 764-769):
`len(config.get('filter_combinations', [])) if
isinstance(config.get('filter_combinations'), list) else "All"` — the
length when the entry is a list, and the string "All" when the entry is
absent or the `'all'` sentinel. -/
def filterTestsMetric (c : SweepConfig) : MetricDisplay :=
  match c.filter_combinations with
  | .lst cs => .num cs.length
  | .absent => .allStr
  | .allSentinel => .allStr

/-- Outcome of one press of the "Start 3-Step Optimization" button. -/
inductive StartOutcome where
  | alreadyRunning : StartOutcome
  | started : StartOutcome
  | quickComplete : StartOutcome
  | startFailed : JVal → StartOutcome

/-- Observable effects of the Start 3-Step Optimization handler: its
outcome, how many POST /optimize and GET /results requests it issued,
the final value of the optimization_running flag, and the value stored
in st.session_state.optimization_results (None when unchanged). -/
structure StartEffects where
  outcome : StartOutcome
  optimizeCalls : Nat
  resultsCalls : Nat
  finalRunning : Bool
  storedResults : Option JDict

/-- Embedding of the Start 3-Step Optimization handler (src/app.py
lines 818-958).  `running` is st.session_state.optimization_running on
entry, `remote` the transport outcome of the POST /optimize request and
`quickFetch` that of the GET /results request the quick-test branch may
issue.  If the flag is set, the handler only warns ("Optimization is
already running!") and issues no request.  Otherwise it calls
run_colab_optimization (which never raises: every exception, Timeout
included, is converted to an `{'error': ...}` dict by lines 89-97, so
the handler's own `except requests.exceptions.Timeout` branch at lines
923-948 is unreachable from this call).  On a truthy result without an
'error' key it stores the result, runs the quick-test immediate check
(lines 861-870) and finally clears the flag (line 916); otherwise it
reports "Failed to start: ..." with `result.get('error', 'Unknown
error')` (or 'No response from Colab' for a falsy result) and clears
the flag (lines 918-921). -/
def startHandler (running : Bool) (config : SweepConfig)
    (remote : OptimizeOutcome) (quickFetch : FetchOutcome) : StartEffects :=
  if running then
    { outcome := .alreadyRunning, optimizeCalls := 0, resultsCalls := 0
      finalRunning := true, storedResults := none }
  else
    let result := run_colab_optimization remote
    if result.isEmpty = false ∧ result.hasKey "error" = false then
      if config.optimization_type = "3_step" ∧ config.pivot_periods.length = 1 then
        match get_optimization_results quickFetch with
        | some qr =>
          if qr.hasKey "assets" then
            { outcome := .quickComplete, optimizeCalls := 1, resultsCalls := 1
              finalRunning := false, storedResults := some qr }
          else
            { outcome := .started, optimizeCalls := 1, resultsCalls := 1
              finalRunning := false, storedResults := some result }
        | none =>
          { outcome := .started, optimizeCalls := 1, resultsCalls := 1
            finalRunning := false, storedResults := some result }
      else
        { outcome := .started, optimizeCalls := 1, resultsCalls := 0
          finalRunning := false, storedResults := some result }
    else
      let msg := if result.isEmpty = false then
          result.getD "error" (JVal.prim (JPrim.pstr "Unknown error"))
        else JVal.prim (JPrim.pstr "No response from Colab")
      { outcome := .startFailed msg, optimizeCalls := 1, resultsCalls := 0
        finalRunning := false, storedResults := none }

/-- User-visible events of the Check Progress handler, in the order the
handler produces them. -/
inductive ProgressEvent where
  | declaredComplete : ProgressEvent
  | fetchAttempted : ProgressEvent
  | resultsUpdated : ProgressEvent
  | fetchFailed : ProgressEvent
  | progressInfo : JVal → JVal → ProgressEvent
  | statusUnavailable : ProgressEvent

/-- Observable effects of the Check Progress handler: the ordered event
trace and the value stored in optimization_results (None when
unchanged). -/
structure ProgressEffects where
  events : List ProgressEvent
  stored : Option JDict

/-- Embedding of the Check Progress handler (src/app.py lines 876-896).
On a truthy status whose 'running' entry compares equal to False the
handler first shows "✅ Optimization Complete!" (line 882), then calls
get_optimization_results (line 884); if the fetched dict is truthy and
has an 'assets' key it is stored and "Results updated!" shown,
otherwise "Could not retrieve results" is shown as an error.  On a
truthy status still running it shows the progress info, and on a falsy
status a "Could not check status" warning. -/
def checkProgressHandler (status : StatusOutcome) (fetch : FetchOutcome) :
    ProgressEffects :=
  match check_optimization_status status with
  | none => { events := [.statusUnavailable], stored := none }
  | some s =>
    if s.isEmpty then { events := [.statusUnavailable], stored := none }
    else if runningReportedFalse s then
      match get_optimization_results fetch with
      | some d =>
        if d.isEmpty = false ∧ d.hasKey "assets" then
          { events := [.declaredComplete, .fetchAttempted, .resultsUpdated]
            stored := some d }
        else
          { events := [.declaredComplete, .fetchAttempted, .fetchFailed]
            stored := none }
      | none =>
        { events := [.declaredComplete, .fetchAttempted, .fetchFailed]
          stored := none }
    else
      { events := [.progressInfo (s.getD "progress" (JVal.prim (JPrim.pint 0)))
                     (s.getD "message" (JVal.prim (JPrim.pstr "Processing...")))]
        stored := none }

/-- Outcome of one press of the "Get Results" button. -/
inductive GetResultsOutcome where
  | accepted : JDict → GetResultsOutcome
  | notReady : GetResultsOutcome

/-- Embedding of the Get Results handler (src/app.py lines 899-910):
the fetched dict is accepted and stored when it is truthy and
`('assets' in final_results or 'message' not in final_results)` holds;
otherwise "Results not ready yet" is shown. -/
def getResultsHandler (fetch : FetchOutcome) : GetResultsOutcome :=
  match get_optimization_results fetch with
  | none => .notReady
  | some d =>
    if d.isEmpty = false ∧ (d.hasKey "assets" = true ∨ d.hasKey "message" = false)
    then .accepted d
    else .notReady

/-- Whether the (normalized) fetched results carry the per-asset
structure, i.e. `final_results and 'assets' in final_results`. -/
def resultsHaveAssets (fetch : FetchOutcome) : Bool :=
  match get_optimization_results fetch with
  | some d => d.hasKey "assets"
  | none => false

/-- Model of the Python builtin `range(start, stop, step)` for a
positive step: the values `start + k*step` for
`k < max(0, ceil((stop-start)/step))`, which over naturals is
`(stop - start + step - 1) / step` (truncated subtraction makes this 0
when stop ≤ start). -/
def pyRange (start stop step : Nat) : List Nat :=
  (List.range ((stop - start + step - 1) / step)).map (fun k => start + k * step)

/-- Model of `np.arange(a, b, s)` for a positive rational step over
exact rationals: the values `a + k*s` for `k < max(0, ceil((b-a)/s))`.
src/app.py feeds it Python floats; the counterexample below uses values
on which float and exact arithmetic agree. -/
def npArange (a b s : Rat) : List Rat :=
  (List.range (⌈(b - a) / s⌉.toNat)).map (fun (k : Nat) => a + (k : Rat) * s)

/-- Model of Python `round(x, 2)`: round `x*100` to an integer and
divide by 100.  (Python rounds ties to even, Mathlib's round rounds
ties up; the tie-breaking rule is immaterial to every property proved
below.) -/
def round2 (q : Rat) : Rat :=
  ((round (q * 100) : Int) : Rat) / 100

/-- Custom-preset pivot-period expansion (src/app.py line 697):
`list(range(pivot_min, pivot_max + 1, pivot_step))`. -/
def customPivotPeriods (mn mx st : Nat) : List Nat :=
  pyRange mn (mx + 1) st

/-- Custom-preset ATR-period expansion (src/app.py line 710):
`list(range(atr_period_min, atr_period_max + 1, atr_period_step))`. -/
def customAtrPeriods (mn mx st : Nat) : List Nat :=
  pyRange mn (mx + 1) st

/-- Custom-preset ATR-factor expansion (src/app.py lines 703-704):
`[round(x, 2) for x in np.arange(atr_factor_min, atr_factor_max +
atr_factor_step, atr_factor_step)]`. -/
def customAtrFactors (mn mx st : Rat) : List Rat :=
  (npArange mn (mx + st) st).map round2

/-- One entry of the remote payload's `comparison['rankings']` list as
consumed by the rankings table (src/app.py lines 1040-1047): keys
'asset', 'score', 'sharpe', 'win_rate'. -/
structure RankRow where
  asset : String
  score : Rat
  sharpe : Rat
  win_rate : Rat
deriving DecidableEq, Repr

/-- The per-asset metrics block of a result payload (the 'metrics' keys
read at src/app.py lines 1075-1085). -/
structure AssetMetrics where
  max_drawdown : Rat
  profit_factor : Rat
  sharpe : Rat
  total_return : Rat
  total_trades : Nat
  win_rate : Rat
deriving DecidableEq, Repr

/-- One value of the payload's `assets` mapping: metrics, winning
parameters (elided — not consulted by any claim) and score. -/
structure AssetEntry where
  metrics : AssetMetrics
  score : Rat
deriving DecidableEq, Repr

/-- The shape of the final result payload as consumed by tab3 of
src/app.py: the `assets` mapping, the remote-supplied
`comparison['rankings']` list and the three `best_by_*` fields. -/
structure ResultsPayload where
  assets : List (String × AssetEntry)
  rankings : List RankRow
  best_by_score : String
  best_by_sharpe : String
  best_by_win_rate : String

/-- Embedding of the rankings-table construction (src/app.py lines
1039-1047): one row per entry of `comparison['rankings']`, in payload
order, with `'Rank': len(rankings_data) + 1` numbering the rows 1..n.
The `f"{...:.2f}"` string formatting of the displayed numbers is
elided; rows keep the underlying values. -/
def renderRankings (rankings : List RankRow) : List (Nat × RankRow) :=
  rankings.enum.map (fun p => (p.1 + 1, p.2))

/-- The rankings table displayed for a payload in tab3. -/
def displayedRankings (p : ResultsPayload) : List (Nat × RankRow) :=
  renderRankings p.rankings

/-- The asset names offered for detailed display (src/app.py lines
1059-1060): `list(assets.keys())`, i.e. every key of the payload's
assets mapping, unfiltered. -/
def displayedAssetNames (p : ResultsPayload) : List String :=
  p.assets.map (fun a => a.1)

/-- Spec-described ordering on asset entries (spec §4.3): descending by
score, ties broken by sharpe descending, then by symbol ascending. -/
def specRankBefore (a b : String × AssetEntry) : Bool :=
  decide (b.2.score < a.2.score)
  || (decide (a.2.score = b.2.score)
      && (decide (b.2.metrics.sharpe < a.2.metrics.sharpe)
          || (decide (a.2.metrics.sharpe = b.2.metrics.sharpe)
              && decide (a.1 ≤ b.1))))

/-- Insertion step of the spec-described sort. -/
def specRankInsert (x : String × AssetEntry) :
    List (String × AssetEntry) → List (String × AssetEntry)
  | [] => [x]
  | y :: ys => if specRankBefore x y then x :: y :: ys else y :: specRankInsert x ys

/-- Modelled from the spec (§4.3), not present in the source: the local
Result Aggregator's rankings — the asset symbols sorted descending by
score, ties broken by sharpe descending then symbol ascending, computed
from the assets mapping.  Used only to compare the spec's described
behaviour with what the source actually displays. -/
def specAggregatorRankings (assets : List (String × AssetEntry)) : List String :=
  (assets.foldr specRankInsert []).map (fun a => a.1)

/-- One entry of st.session_state.selected_assets (src/app.py lines
369-382): a symbol/name record. -/
structure SelAsset where
  symbol : String
  name : String
deriving DecidableEq, Repr

/-- Embedding of the Add Asset handlers (src/app.py lines 369-382 and
409-422, both textually identical in their list manipulation): the
asset is appended only if its symbol is not already selected and fewer
than 5 assets are selected; otherwise the list is unchanged (an error
or warning is shown). -/
def addAsset (assets : List SelAsset) (sym nm : String) : List SelAsset :=
  if sym ∈ assets.map SelAsset.symbol then assets
  else if assets.length < 5 then assets ++ [⟨sym, nm⟩]
  else assets

/-- Embedding of the remove button (src/app.py line 435):
`selected_assets.remove(asset)` removes the first occurrence of the
clicked (present) asset record. -/
def removeAsset (assets : List SelAsset) (a : SelAsset) : List SelAsset :=
  assets.erase a

/-- The selected-assets invariant: at most 5 entries and pairwise
distinct symbols. -/
def selInvariant (assets : List SelAsset) : Prop :=
  assets.length ≤ 5 ∧ (assets.map SelAsset.symbol).Nodup

/-- A metrics block used in the concrete payloads below. -/
def mkMetrics (sharpe win_rate : Rat) (total_trades : Nat) : AssetMetrics where
  max_drawdown := 0
  profit_factor := 1
  sharpe := sharpe
  total_return := 0
  total_trades := total_trades
  win_rate := win_rate

/-- Concrete asset entry with score 1. -/
def cxEntryA : AssetEntry := { metrics := mkMetrics 0 0 100, score := 1 }

/-- Concrete asset entry with score 2. -/
def cxEntryB : AssetEntry := { metrics := mkMetrics 0 0 100, score := 2 }

/-- A concrete remote payload whose `comparison['rankings']` list is in
ascending score order ("A" with score 1 before "B" with score 2). -/
def cxPayload : ResultsPayload where
  assets := [("A", cxEntryA), ("B", cxEntryB)]
  rankings := [⟨"A", 1, 0, 0⟩, ⟨"B", 2, 0, 0⟩]
  best_by_score := "B"
  best_by_sharpe := "B"
  best_by_win_rate := "B"

/-- A concrete asset entry with only 5 trades. -/
def lowEntry : AssetEntry := { metrics := mkMetrics 0 0 5, score := 7 }

/-- A concrete remote payload whose rankings list an asset with only 5
total trades (below the submitted min_trades of 30, the value shown at
src/app.py line 792). -/
def lowPayload : ResultsPayload where
  assets := [("X", lowEntry)]
  rankings := [⟨"X", 7, 0, 0⟩]
  best_by_score := "X"
  best_by_sharpe := "X"
  best_by_win_rate := "X"

/-- The status dict `{'running': False}`. -/
def statusNotRunning : JDict :=
  JDict.cons "running" (JVal.prim (JPrim.pbool false)) JDict.nil

/-- The transitional results payload `{'message': 'still running'}`. -/
def stillRunningPayload : JDict :=
  JDict.cons "message" (JVal.prim (JPrim.pstr "still running")) JDict.nil

/-- A results payload `{'status': 'ok'}` that lacks both the 'assets'
and the 'message' key. -/
def noAssetsNoMessagePayload : JDict :=
  JDict.cons "status" (JVal.prim (JPrim.pstr "ok")) JDict.nil

mutual

/-- convert_numpy is idempotent on values. -/
theorem convert_numpy_idem : (x : JVal) →
    convert_numpy (convert_numpy x) = convert_numpy x
  | .wrapped _ => rfl
  | .prim _ => rfl
  | .dict d => by simp [convert_numpy, convert_numpyDict_idem d]
  | .jlist l => by simp [convert_numpy, convert_numpyList_idem l]

/-- convert_numpy is idempotent on dicts. -/
theorem convert_numpyDict_idem : (d : JDict) →
    convert_numpyDict (convert_numpyDict d) = convert_numpyDict d
  | .nil => rfl
  | .cons k v rest => by
    simp [convert_numpyDict, convert_numpy_idem v, convert_numpyDict_idem rest]

/-- convert_numpy is idempotent on lists. -/
theorem convert_numpyList_idem : (l : JList) →
    convert_numpyList (convert_numpyList l) = convert_numpyList l
  | .lnil => rfl
  | .lcons v rest => by
    simp [convert_numpyList, convert_numpy_idem v, convert_numpyList_idem rest]

end

mutual

/-- convert_numpy preserves the dict/list skeleton of a value. -/
theorem convert_numpy_shape : (x : JVal) →
    JVal.shape (convert_numpy x) = JVal.shape x
  | .wrapped _ => rfl
  | .prim _ => rfl
  | .dict d => by simp [convert_numpy, JVal.shape, convert_numpyDict_shape d]
  | .jlist l => by simp [convert_numpy, JVal.shape, convert_numpyList_shape l]

/-- convert_numpy preserves the skeleton (key spine included) of a dict. -/
theorem convert_numpyDict_shape : (d : JDict) →
    JDict.shape (convert_numpyDict d) = JDict.shape d
  | .nil => rfl
  | .cons k v rest => by
    simp [convert_numpyDict, JDict.shape, convert_numpy_shape v,
      convert_numpyDict_shape rest]

/-- convert_numpy preserves the skeleton of a list. -/
theorem convert_numpyList_shape : (l : JList) →
    JList.shape (convert_numpyList l) = JList.shape l
  | .lnil => rfl
  | .lcons v rest => by
    simp [convert_numpyList, JList.shape, convert_numpy_shape v,
      convert_numpyList_shape rest]

end

/-- convert_numpy preserves key membership. -/
theorem hasKey_convert : (d : JDict) → (k : String) →
    (convert_numpyDict d).hasKey k = d.hasKey k
  | .nil, _ => rfl
  | .cons k' v rest, k => by
    by_cases h : k' = k
    · simp [convert_numpyDict, JDict.hasKey, JDict.lookup, h]
    · simp only [convert_numpyDict, JDict.hasKey, JDict.lookup, if_neg h]
      exact hasKey_convert rest k

/-- convert_numpy preserves emptiness. -/
theorem isEmpty_convert : (d : JDict) → (convert_numpyDict d).isEmpty = d.isEmpty
  | .nil => rfl
  | .cons _ _ _ => rfl

/-- Claim C9: the numpy-wrapper normalization applied when fetching
results is idempotent — for every JSON-like payload built from dicts,
lists, wrapper scalars and plain values, convert_numpy (convert_numpy
x) = convert_numpy x — and the output preserves the dict/list
structure and keys of the input (its skeleton is unchanged). -/
theorem convert_numpy_idem_shape (x : JVal) :
    convert_numpy (convert_numpy x) = convert_numpy x
    ∧ JVal.shape (convert_numpy x) = JVal.shape x :=
  ⟨convert_numpy_idem x, convert_numpy_shape x⟩

/-- Claim C1: whenever the optimization_running flag is true, pressing
Start 3-Step Optimization fails fast with the already-running warning
and issues no POST /optimize request, whatever the remote would have
answered. -/
theorem submit_while_running_no_optimize_call
    (config : SweepConfig) (remote : OptimizeOutcome) (quickFetch : FetchOutcome) :
    (startHandler true config remote quickFetch).outcome = StartOutcome.alreadyRunning
    ∧ (startHandler true config remote quickFetch).optimizeCalls = 0 :=
  ⟨rfl, rfl⟩

/-- Claim C4 (code bug): when the POST /optimize request times out,
run_colab_optimization swallows the Timeout and returns an error dict,
so the handler reports "Failed to start: Request timeout - check if
Colab is still running" and clears the running flag instead of
reaching its own except-Timeout branch (src/app.py lines 923-948) that
would have treated the job as still running. -/
theorem submission_timeout_reports_failure
    (config : SweepConfig) (quickFetch : FetchOutcome) :
    (startHandler false config OptimizeOutcome.timeout quickFetch).outcome
      = StartOutcome.startFailed
          (JVal.prim (JPrim.pstr "Request timeout - check if Colab is still running"))
    ∧ (startHandler false config OptimizeOutcome.timeout quickFetch).finalRunning = false
    ∧ (startHandler false config OptimizeOutcome.timeout quickFetch).optimizeCalls = 1 :=
  ⟨rfl, rfl, rfl⟩

/-- Claim C7, counterexample: the Step 3 "Filter Tests" metric of the
Optimization Summary evaluates to the string "All" on the Quick Test
configuration (which carries no filter_combinations entry), not to 1. -/
theorem quick_filter_tests_metric_all_cx :
    filterTestsMetric quickConfig = MetricDisplay.allStr
    ∧ filterTestsMetric quickConfig ≠ MetricDisplay.num 1 :=
  ⟨rfl, by decide⟩

/-- Claim C7, amended: the quick preset yields exactly 1 core
combination and exactly 1 risk combination; its configuration fixes a
single filter setting (use_xtrend, use_ema set, use_adx clear) with
one EMA period and one ADX threshold instead of carrying a
filter_combinations list, so the summary's filter-tests metric
displays "All" rather than 1. -/
theorem quick_preset_combination_counts :
    coreCombos quickConfig = 1
    ∧ riskCombos quickConfig = 1
    ∧ quickConfig.filter_combinations = FilterCombs.absent
    ∧ quickConfig.use_xtrend = some true
    ∧ quickConfig.use_ema = some true
    ∧ quickConfig.use_adx = some false
    ∧ quickConfig.ema_periods.length = 1
    ∧ quickConfig.adx_thresholds.length = 1
    ∧ filterTestsMetric quickConfig = MetricDisplay.allStr :=
  ⟨rfl, rfl, rfl, rfl, rfl, rfl, rfl, rfl, rfl⟩

/-- Claim C5, counterexample: the payload {'status': 'ok'}, which lacks
the per-asset 'assets' structure, is not reported NotReady — the Get
Results handler accepts and stores it as final results, because the
acceptance test is `'assets' in r or 'message' not in r`. -/
theorem fetch_results_missing_assets_accepted_cx :
    getResultsHandler (FetchOutcome.ok noAssetsNoMessagePayload)
      = GetResultsOutcome.accepted noAssetsNoMessagePayload
    ∧ noAssetsNoMessagePayload.hasKey "assets" = false :=
  ⟨rfl, rfl⟩

/-- Claim C5, amended: a fetched payload without an 'assets' key is
reported NotReady exactly when it is empty or contains a 'message' key
(never as a parse error — fetch failures also yield NotReady);
a non-empty payload lacking both keys is instead accepted as final
results. -/
theorem fetch_results_not_ready_iff (d : JDict)
    (h : d.hasKey "assets" = false) :
    (getResultsHandler (FetchOutcome.ok d) = GetResultsOutcome.notReady
      ↔ (d.isEmpty = true ∨ d.hasKey "message" = true)) := by
  have hc : getResultsHandler (FetchOutcome.ok d)
      = if d.isEmpty = false ∧ (d.hasKey "assets" = true ∨ d.hasKey "message" = false)
        then GetResultsOutcome.accepted (convert_numpyDict d)
        else GetResultsOutcome.notReady := by
    simp [getResultsHandler, get_optimization_results, hasKey_convert, isEmpty_convert]
  rw [hc]
  rcases Bool.eq_false_or_eq_true d.isEmpty with he | he <;>
    rcases Bool.eq_false_or_eq_true (d.hasKey "message") with hm | hm <;>
      simp [he, hm, h]

/-- Claim C5, witness: the spec's own example {'message': 'still
running'} has no 'assets' key and is reported NotReady. -/
theorem fetch_results_not_ready_iff_witness :
    stillRunningPayload.hasKey "assets" = false
    ∧ getResultsHandler (FetchOutcome.ok stillRunningPayload)
        = GetResultsOutcome.notReady :=
  ⟨rfl, (fetch_results_not_ready_iff stillRunningPayload rfl).mpr (Or.inr rfl)⟩

/-- Claim C2, counterexample: on the status {'running': False} with the
fetch answering {'message': 'still running'} (no retrievable data),
the Check Progress handler declares "Optimization Complete!" first,
attempts the fetch only afterwards, and then reports the retrieval
error — so the job is reported Complete even though no data could be
fetched, and the fetch is not attempted before declaring Complete. -/
theorem check_progress_declares_complete_before_fetch_cx :
    (checkProgressHandler (StatusOutcome.ok statusNotRunning)
        (FetchOutcome.ok stillRunningPayload)).events
      = [ProgressEvent.declaredComplete, ProgressEvent.fetchAttempted,
         ProgressEvent.fetchFailed]
    ∧ (checkProgressHandler (StatusOutcome.ok statusNotRunning)
        (FetchOutcome.ok stillRunningPayload)).stored = none :=
  ⟨rfl, rfl⟩

/-- Claim C2, amended: whenever a truthy status reports running=False,
the handler declares Complete and then immediately attempts the result
fetch; when the fetch yields no per-asset data, it additionally
reports a retrieval failure and stores no results (so the no-data
outcome is reported as Complete-then-failed, not as Complete with
results). -/
theorem check_progress_not_running_behavior
    (s : JDict) (fetch : FetchOutcome)
    (hne : s.isEmpty = false) (hrun : runningReportedFalse s = true) :
    (checkProgressHandler (StatusOutcome.ok s) fetch).events.take 2
        = [ProgressEvent.declaredComplete, ProgressEvent.fetchAttempted]
    ∧ (resultsHaveAssets fetch = false →
        (checkProgressHandler (StatusOutcome.ok s) fetch).events
            = [ProgressEvent.declaredComplete, ProgressEvent.fetchAttempted,
               ProgressEvent.fetchFailed]
        ∧ (checkProgressHandler (StatusOutcome.ok s) fetch).stored = none) := by
  have hmain : checkProgressHandler (StatusOutcome.ok s) fetch
      = match get_optimization_results fetch with
        | some d =>
          if d.isEmpty = false ∧ d.hasKey "assets" then
            { events := [.declaredComplete, .fetchAttempted, .resultsUpdated]
              stored := some d }
          else
            { events := [.declaredComplete, .fetchAttempted, .fetchFailed]
              stored := none }
        | none =>
          { events := [.declaredComplete, .fetchAttempted, .fetchFailed]
            stored := none } := by
    simp [checkProgressHandler, check_optimization_status, hne, hrun]
  cases hf : get_optimization_results fetch with
  | none =>
    rw [hmain, hf]
    exact ⟨rfl, fun _ => ⟨rfl, rfl⟩⟩
  | some d =>
    rw [hmain, hf]
    constructor
    · split <;> first | rfl | (split <;> rfl)
    · intro hna
      have hk : d.hasKey "assets" = false := by
        simpa [resultsHaveAssets, hf] using hna
      simp [hk]

/-- Claim C2, witness: concrete not-running status with a failing
fetch, reported Complete-then-failed with nothing stored. -/
theorem check_progress_not_running_behavior_witness :
    statusNotRunning.isEmpty = false
    ∧ runningReportedFalse statusNotRunning = true
    ∧ resultsHaveAssets FetchOutcome.exc = false
    ∧ (checkProgressHandler (StatusOutcome.ok statusNotRunning)
        FetchOutcome.exc).events
        = [ProgressEvent.declaredComplete, ProgressEvent.fetchAttempted,
           ProgressEvent.fetchFailed] :=
  ⟨rfl, rfl, rfl,
    ((check_progress_not_running_behavior statusNotRunning FetchOutcome.exc
        rfl rfl).2 rfl).1⟩

/-- The rankings table keeps exactly the payload's rows. -/
theorem renderRankings_map_snd (rs : List RankRow) :
    (renderRankings rs).map (fun p => p.2) = rs := by
  simp only [renderRankings, List.map_map, Function.comp]
  exact List.enum_map_snd rs

/-- The rank column numbers the payload's rows 1..n in payload order. -/
theorem renderRankings_map_fst (rs : List RankRow) :
    (renderRankings rs).map (fun p => p.1)
      = (List.range rs.length).map (fun i => i + 1) := by
  rw [← List.enum_map_fst rs, renderRankings, List.map_map, List.map_map]
  rfl

/-- Claim C3, counterexample: on a concrete payload whose
comparison.rankings come in ascending score order, the rankings table
displays them in that payload order ("A" with score 1 before "B" with
score 2) — not in the descending-score order the spec's local
Aggregator would compute from the assets mapping. -/
theorem rankings_not_locally_sorted_cx :
    (displayedRankings cxPayload).map (fun r => r.2.asset) = ["A", "B"]
    ∧ (displayedRankings cxPayload).map (fun r => r.2.score) = [1, 2]
    ∧ ((1 : Rat) < 2)
    ∧ specAggregatorRankings cxPayload.assets = ["B", "A"]
    ∧ (["A", "B"] : List String) ≠ ["B", "A"] := by
  refine ⟨rfl, rfl, by norm_num, by decide, by decide⟩

/-- Claim C3, amended: the rankings consumed by the presentation layer
are taken verbatim from the remote payload's comparison.rankings — the
table rows are exactly the payload's entries, in payload order, with
rank numbers 1..n — and no local recomputation or sorting is
performed. -/
theorem rankings_displayed_verbatim (rs : List RankRow) :
    (renderRankings rs).map (fun p => p.2) = rs
    ∧ (renderRankings rs).map (fun p => p.1)
        = (List.range rs.length).map (fun i => i + 1) :=
  ⟨renderRankings_map_snd rs, renderRankings_map_fst rs⟩

/-- Claim C8, counterexample: an asset with only 5 total trades (below
the submitted min_trades of 30) appears in the displayed rankings,
because the remote payload lists it and the client applies no
min-trades filter. -/
theorem low_trades_asset_ranked_cx :
    "X" ∈ (displayedRankings lowPayload).map (fun r => r.2.asset)
    ∧ lowEntry.metrics.total_trades = 5
    ∧ lowEntry.metrics.total_trades < 30
    ∧ ("X", lowEntry) ∈ lowPayload.assets := by
  refine ⟨by decide, rfl, by decide, by simp [lowPayload]⟩

/-- Claim C8, amended: the client applies no minTrades filter — an
asset whose metrics.totalTrades is below the submitted minTrades
appears in the displayed rankings exactly when the remote payload's
comparison.rankings list it, and it always remains present among the
displayed asset names. -/
theorem rankings_ignore_min_trades
    (p : ResultsPayload) (minTrades : Nat) (sym : String) (e : AssetEntry)
    (hmem : (sym, e) ∈ p.assets) (_hlow : e.metrics.total_trades < minTrades) :
    ((sym ∈ (displayedRankings p).map (fun r => r.2.asset))
        ↔ sym ∈ p.rankings.map RankRow.asset)
    ∧ sym ∈ displayedAssetNames p := by
  constructor
  · have h1 : (displayedRankings p).map (fun r => r.2.asset)
        = p.rankings.map RankRow.asset := by
      have h2 : (displayedRankings p).map (fun r => r.2) = p.rankings :=
        renderRankings_map_snd p.rankings
      calc (displayedRankings p).map (fun r => r.2.asset)
          = ((displayedRankings p).map (fun r => r.2)).map RankRow.asset := by
            simp [List.map_map, Function.comp]
        _ = p.rankings.map RankRow.asset := by rw [h2]
    rw [h1]
  · exact List.mem_map_of_mem (fun a => a.1) hmem

/-- Claim C8, witness: the concrete low-trade payload, with the
submitted min_trades of 30. -/
theorem rankings_ignore_min_trades_witness :
    ("X", lowEntry) ∈ lowPayload.assets
    ∧ lowEntry.metrics.total_trades < 30
    ∧ "X" ∈ displayedAssetNames lowPayload :=
  ⟨by simp [lowPayload], by decide,
    (rankings_ignore_min_trades lowPayload 30 "X" lowEntry
      (by simp [lowPayload]) (by decide)).2⟩

/-- Claim C10: the selected-assets list keeps its invariant — at most 5
entries, pairwise distinct symbols — across every add and remove, and
an add of an already-selected symbol or an add when 5 assets are
selected leaves the list unchanged. -/
theorem selected_assets_invariant
    (assets : List SelAsset) (sym nm : String) (a : SelAsset)
    (h : selInvariant assets) :
    selInvariant (addAsset assets sym nm)
    ∧ selInvariant (removeAsset assets a)
    ∧ (sym ∈ assets.map SelAsset.symbol → addAsset assets sym nm = assets)
    ∧ (assets.length = 5 → addAsset assets sym nm = assets) := by
  obtain ⟨hlen, hnd⟩ := h
  refine ⟨?_, ?_, ?_, ?_⟩
  · unfold addAsset
    by_cases hm : sym ∈ assets.map SelAsset.symbol
    · simpa [hm] using ⟨hlen, hnd⟩
    · by_cases hl : assets.length < 5
      · refine ⟨?_, ?_⟩
        · simp [hm, hl]
          omega
        · simp only [hm, hl, if_neg, if_pos, if_true, if_false]
          simp [List.nodup_append, hnd, hm]
      · simpa [hm, hl] using ⟨hlen, hnd⟩
  · exact ⟨le_trans (List.Sublist.length_le (List.erase_sublist a assets)) hlen,
      hnd.sublist (List.Sublist.map SelAsset.symbol (List.erase_sublist a assets))⟩
  · intro hm
    simp [addAsset, hm]
  · intro h5
    by_cases hm : sym ∈ assets.map SelAsset.symbol
    · simp [addAsset, hm]
    · simp [addAsset, hm, h5]

/-- Claim C10, witness: adding a second asset to a valid one-element
selection keeps the invariant. -/
theorem selected_assets_invariant_witness :
    selInvariant [(⟨"BTC-USD", "Bitcoin (BTC-USD)"⟩ : SelAsset)]
    ∧ selInvariant
        (addAsset [⟨"BTC-USD", "Bitcoin (BTC-USD)"⟩] "ETH-USD" "Ethereum (ETH-USD)") := by
  have h : selInvariant [(⟨"BTC-USD", "Bitcoin (BTC-USD)"⟩ : SelAsset)] := by
    refine ⟨by decide, by decide⟩
  exact ⟨h, (selected_assets_invariant _ "ETH-USD" "Ethereum (ETH-USD)"
    ⟨"BTC-USD", "Bitcoin (BTC-USD)"⟩ h).1⟩

/-- Claim C6, counterexample: the ATR-factor expansion at the valid
triple (min, max, step) = (0.8, 2.0, 0.5) — all values inside the
widget bounds of src/app.py lines 700-702 — produces
[0.8, 1.3, 1.8, 2.3]: 4 elements instead of floor((max-min)/step)+1 =
3, and the element 2.3 exceeds the inclusive upper bound max = 2.0,
because np.arange runs to max + step exclusive. -/
theorem atr_factor_expansion_overshoots_cx :
    customAtrFactors (4/5) 2 (1/2) = [4/5, 13/10, 9/5, 23/10]
    ∧ (customAtrFactors (4/5) 2 (1/2)).length = 4
    ∧ ⌊(((2 : Rat) - 4/5) / (1/2))⌋ + 1 = 3
    ∧ ¬ ((23 : Rat)/10 ≤ 2) := by
  have hceil : (⌈((2 + (1/2 : Rat)) - 4/5) / (1/2)⌉ : Int) = 4 := by
    rw [Int.ceil_eq_iff]
    norm_num
  have hr : List.range (Int.toNat 4) = [0, 1, 2, 3] := rfl
  have hlist : customAtrFactors (4/5) 2 (1/2) = [4/5, 13/10, 9/5, 23/10] := by
    simp only [customAtrFactors, npArange, hceil, hr, List.map_cons, List.map_nil,
      Function.comp]
    norm_num [round2, round_eq]
  have hfloor : ⌊(((2 : Rat) - 4/5) / (1/2))⌋ = 2 := by norm_num
  exact ⟨hlist, by rw [hlist]; rfl, by rw [hfloor]; rfl, by norm_num⟩

/-- round2 maps a gap of at least 1/20 (the smallest step the ATR
Factor Step widget admits) to a strict increase. -/
theorem round2_strict_mono_gap {x y : Rat} (h : x + 1/20 ≤ y) :
    round2 x < round2 y := by
  have h100 : x * 100 + ((5 : Int) : Rat) ≤ y * 100 := by
    push_cast
    nlinarith
  have hr : round (x * 100) + 5 ≤ round (y * 100) := by
    calc round (x * 100) + 5 = round (x * 100 + ((5 : Int) : Rat)) :=
          (round_add_int _ _).symm
      _ ≤ round (y * 100) := by
          rw [round_eq, round_eq]
          exact Int.floor_le_floor (by linarith)
  have hlt : round (x * 100) < round (y * 100) := by omega
  unfold round2
  rw [div_lt_div_iff_of_pos_right (by norm_num : (0 : Rat) < 100)]
  exact_mod_cast hlt

/-- Every round2 output is a whole number of hundredths. -/
theorem round2_mul_hundred (q : Rat) : ∃ m : Int, round2 q * 100 = (m : Rat) :=
  ⟨round (q * 100), by
    unfold round2
    field_simp⟩

/-- Length of the integer range expansion in closed form. -/
theorem customPivotPeriods_length (mn mx st : Nat) (hst : 1 ≤ st) (hmm : mn ≤ mx) :
    (customPivotPeriods mn mx st).length = (mx - mn) / st + 1 := by
  have h : mx + 1 - mn + st - 1 = (mx - mn) + st := by omega
  simp [customPivotPeriods, pyRange, h, Nat.add_div_right _ (by omega : 0 < st)]

/-- The integer range expansion is strictly increasing. -/
theorem customPivotPeriods_sorted (mn mx st : Nat) (hst : 1 ≤ st) :
    (customPivotPeriods mn mx st).Pairwise (· < ·) := by
  unfold customPivotPeriods pyRange
  rw [List.pairwise_map]
  exact (List.pairwise_lt_range _).imp
    (fun hab => Nat.add_lt_add_left
      ((Nat.mul_lt_mul_right (show 0 < st by omega)).mpr hab) mn)

/-- The integer range expansion never exceeds its inclusive bound. -/
theorem customPivotPeriods_le (mn mx st : Nat) (hst : 1 ≤ st) (hmm : mn ≤ mx) :
    ∀ x ∈ customPivotPeriods mn mx st, x ≤ mx := by
  intro x hx
  unfold customPivotPeriods pyRange at hx
  obtain ⟨k, hk, rfl⟩ := List.mem_map.mp hx
  rw [List.mem_range] at hk
  have h : mx + 1 - mn + st - 1 = (mx - mn) + st := by omega
  rw [h, Nat.add_div_right _ (by omega : 0 < st)] at hk
  have h1 : k ≤ (mx - mn) / st := by omega
  have h2 : k * st ≤ ((mx - mn) / st) * st := Nat.mul_le_mul_right st h1
  have h3 : ((mx - mn) / st) * st ≤ mx - mn := Nat.div_mul_le_self _ _
  omega

/-- Length of the ATR-factor expansion in closed form. -/
theorem customAtrFactors_length (mn mx st : Rat) :
    (customAtrFactors mn mx st).length = ⌈((mx + st) - mn) / st⌉.toNat := by
  simp [customAtrFactors, npArange]

/-- Every element of the ATR-factor expansion is a rounded grid value
strictly below max + step. -/
theorem customAtrFactors_mem (mn mx st : Rat) (hst : 0 < st) :
    ∀ x ∈ customAtrFactors mn mx st, ∃ k : Nat,
      x = round2 (mn + (k : Rat) * st) ∧ mn + (k : Rat) * st < mx + st := by
  intro x hx
  unfold customAtrFactors npArange at hx
  rw [List.map_map] at hx
  obtain ⟨k, hk, hfk⟩ := List.mem_map.mp hx
  rw [List.mem_range] at hk
  refine ⟨k, by rw [← hfk]; rfl, ?_⟩
  have h1 : (k : Int) < ⌈((mx + st) - mn) / st⌉ := Int.lt_toNat.mp hk
  have h3 : (k : Rat) + 1 ≤ (⌈((mx + st) - mn) / st⌉ : Rat) := by
    exact_mod_cast Int.add_one_le_iff.mpr h1
  have h2 : ((⌈((mx + st) - mn) / st⌉ : Rat)) < ((mx + st) - mn) / st + 1 :=
    Int.ceil_lt_add_one _
  have hkQ : (k : Rat) < ((mx + st) - mn) / st := by linarith
  linarith [(lt_div_iff₀ hst).mp hkQ]

/-- For steps of at least 1/20 the rounded ATR-factor expansion is
strictly increasing. -/
theorem customAtrFactors_sorted (mn mx st : Rat) (hst : 1/20 ≤ st) :
    (customAtrFactors mn mx st).Pairwise (· < ·) := by
  unfold customAtrFactors npArange
  rw [List.map_map, List.pairwise_map]
  refine (List.pairwise_lt_range _).imp ?_
  intro a b hab
  show round2 (mn + (a : Rat) * st) < round2 (mn + (b : Rat) * st)
  apply round2_strict_mono_gap
  have h1 : (a : Rat) + 1 ≤ (b : Rat) := by exact_mod_cast hab
  have hst0 : (0 : Rat) ≤ st := le_trans (by norm_num) hst
  have h2 : ((a : Rat) + 1) * st ≤ (b : Rat) * st :=
    mul_le_mul_of_nonneg_right h1 hst0
  rw [add_mul, one_mul] at h2
  linarith

/-- Claim C6, amended: the integer families (pivot periods, ATR
periods — both expanded by range(min, max+1, step)) contain exactly
floor((max-min)/step)+1 elements, are strictly increasing and contain
no value above the inclusive bound max.  The floating-point ATR-factor
family instead uses np.arange(min, max+step, step): it contains
ceil((max+step-min)/step) elements — one more than
floor((max-min)/step)+1 whenever step does not divide max-min — each
element being a grid value min+k*step rounded to 2 decimal places
(hence a whole number of hundredths) with the unrounded value strictly
below max+step but not necessarily at most max; for the step sizes the
widget admits (at least 0.05) the rounded sequence is still strictly
increasing. -/
theorem custom_range_expansion_properties :
    (∀ mn mx st : Nat, 1 ≤ st → mn ≤ mx →
      (customPivotPeriods mn mx st).length = (mx - mn) / st + 1
      ∧ (customPivotPeriods mn mx st).Pairwise (· < ·)
      ∧ ∀ x ∈ customPivotPeriods mn mx st, x ≤ mx)
    ∧ (∀ mn mx st : Nat, customAtrPeriods mn mx st = customPivotPeriods mn mx st)
    ∧ (∀ mn mx st : Rat, 0 < st →
      (customAtrFactors mn mx st).length = ⌈((mx + st) - mn) / st⌉.toNat
      ∧ (∀ x ∈ customAtrFactors mn mx st, ∃ k : Nat,
          x = round2 (mn + (k : Rat) * st) ∧ mn + (k : Rat) * st < mx + st)
      ∧ (∀ x ∈ customAtrFactors mn mx st, ∃ m : Int, x * 100 = (m : Rat))
      ∧ (1/20 ≤ st → (customAtrFactors mn mx st).Pairwise (· < ·))) := by
  refine ⟨?_, fun _ _ _ => rfl, ?_⟩
  · intro mn mx st hst hmm
    exact ⟨customPivotPeriods_length mn mx st hst hmm,
      customPivotPeriods_sorted mn mx st hst,
      customPivotPeriods_le mn mx st hst hmm⟩
  · intro mn mx st hst
    refine ⟨customAtrFactors_length mn mx st,
      customAtrFactors_mem mn mx st hst, ?_, customAtrFactors_sorted mn mx st⟩
    intro x hx
    obtain ⟨k, hk, -⟩ := customAtrFactors_mem mn mx st hst x hx
    rw [hk]
    exact round2_mul_hundred _

/-- Claim C6, witness: concrete expansions — range(5, 16, 1) has 11
elements and np.arange(0.8, 2.1, 0.1) rounded has 13 elements. -/
theorem custom_range_expansion_properties_witness :
    (customPivotPeriods 5 15 1).length = 11
    ∧ (customAtrFactors (4/5) 2 (1/10)).length = 13 := by
  have hA := (custom_range_expansion_properties.1 5 15 1
    (by norm_num) (by norm_num)).1
  have hB := (custom_range_expansion_properties.2.2 (4/5) 2 (1/10)
    (by norm_num)).1
  have hceil : (⌈(((2 : Rat) + 1/10) - 4/5) / (1/10)⌉ : Int) = 13 := by
    rw [Int.ceil_eq_iff]
    norm_num
  constructor
  · rw [hA]
  · rw [hB, hceil]
    rfl

end TradingOpt
